import Mathlib

/-!
Verification of the hydraulic-conductivity prediction tool (`app.py`).

The app collects nine numeric mix-design and geotechnical parameters,
validates them with three advisory rules, feeds them in fixed order to an
external regression model, and classifies the predicted log₁₀ hydraulic
conductivity into a GREEN/AMBER/RED acceptance zone.

Numeric values are modelled as rationals (the app's comparisons are exact
comparisons on IEEE doubles; over the relevant decimal constants they agree
with exact rational arithmetic); the derived linear-space conductivity
`10 ** predicted_log_hc` is modelled over the reals with `Real.rpow`.
-/

namespace HCApp

/-- A single interaction's input values, one field per `st.number_input`
widget of `app.py` (FA, SCBA, EC, LL, PI, FSI, MDUW, OMC, UCS). -/
structure PredictionRequest where
  FA : ℚ
  SCBA : ℚ
  EC : ℚ
  LL : ℚ
  PI : ℚ
  FSI : ℚ
  MDUW : ℚ
  OMC : ℚ
  UCS : ℚ
deriving DecidableEq, Repr

/-- Warning text of the composition rule (`app.py` line 52). -/
def compositionWarning : String := "⚠ FA + SCBA + EC should sum to 100%"

/-- Warning text of the strength rule (`app.py` line 55). -/
def strengthWarning : String :=
  "⚠ UCS < 200 kPa (may not satisfy liner strength requirement)"

/-- Warning text of the Atterberg rule (`app.py` line 58). -/
def atterbergWarning : String :=
  "⚠ Liquid Limit should be greater than Plasticity Index"

/-- Input validation of `app.py` lines 49–58: start from the empty list and
append each warning whose condition holds, in source order. -/
def validate (r : PredictionRequest) : List String :=
  (if |r.FA + r.SCBA + r.EC - 100| > 1 then [compositionWarning] else []) ++
  (if r.UCS < 200 then [strengthWarning] else []) ++
  (if r.LL < r.PI then [atterbergWarning] else [])

/-- The acceptance zone of the traffic-light logic (`app.py` lines 86–100). -/
inductive Zone where
  | GREEN
  | AMBER
  | RED
deriving DecidableEq, Repr

/-- Numeric rank of a zone, GREEN < AMBER < RED (best to worst). -/
def zoneIdx : Zone → ℕ
  | .GREEN => 0
  | .AMBER => 1
  | .RED => 2

/-- Traffic-light acceptance logic of `app.py` lines 86–100:
`if predicted_log_hc <= -7.0` → GREEN,
`elif -7.0 < predicted_log_hc <= -6.5` → AMBER, `else` → RED. -/
def classify (predicted_log_hc : ℚ) : Zone :=
  if predicted_log_hc ≤ -7.0 then .GREEN
  else if -7.0 < predicted_log_hc ∧ predicted_log_hc ≤ -6.5 then .AMBER
  else .RED

/-- The feature vector handed to the model, `app.py` line 69:
`X = np.array([[FA, SCBA, EC, LL, PI, FSI, MDUW, OMC, UCS]])`. -/
def featureVector (r : PredictionRequest) : List ℚ :=
  [r.FA, r.SCBA, r.EC, r.LL, r.PI, r.FSI, r.MDUW, r.OMC, r.UCS]

/-- Linear-space conductivity derived from log-space, `app.py` line 72:
`predicted_hc = 10 ** predicted_log_hc`. -/
noncomputable def predicted_hc (predicted_log_hc : ℝ) : ℝ :=
  (10 : ℝ) ^ predicted_log_hc

/-- Modelled from the spec: the spec's `PredictionError` (§7), raised when a
malformed input vector is handed to the model. The model artifact and the
exception machinery are outside the repository's source. -/
inductive PredictionError where
  | shapeMismatch (got expected : ℕ)
deriving DecidableEq, Repr

/-- Modelled from the spec: the external model artifact (§6), opaque beyond
its `predict(vector) -> float` contract, with an expected input dimension. -/
structure Model where
  expectedDim : ℕ
  f : List ℚ → ℚ

/-- Modelled from the spec: the predictor adapter (§4.3) delegating to the
external model; it fails with `PredictionError` when the vector shape
mismatches the model's expectation. -/
def modelPredict (m : Model) (X : List ℚ) : Except PredictionError ℚ :=
  if X.length = m.expectedDim then .ok (m.f X)
  else .error (.shapeMismatch X.length m.expectedDim)

/-- The classified outcome of one prediction (spec §3's `PredictionResult`;
the linear-space value is recovered by `predicted_hc` on the log field). -/
structure PredictionResult where
  predicted_log_hc : ℚ
  zone : Zone
deriving DecidableEq, Repr

/-- What one prediction-button interaction displays: the advisory warnings,
the classified result when prediction succeeded, and the failed-prediction
message otherwise. -/
structure Output where
  warnings : List String
  result : Option PredictionResult
  errorMsg : Option String
deriving DecidableEq, Repr

/-- Modelled from the spec: the failed-prediction message surfaced to the
user on a `PredictionError` (§7); the surfacing itself happens in the UI
framework, outside the repository's source. -/
def failedPredictionMessage : String :=
  "Prediction failed: malformed input vector to the model"

/-- One full interaction with the Predict button pressed (`app.py` lines
49–100): validation warnings are computed and shown, the fixed-order feature
vector is handed to the model, and on success the prediction is classified;
on a `PredictionError` the failed-prediction message is shown instead
(error surfacing modelled from spec §7). -/
def runInteraction (m : Model) (r : PredictionRequest) : Output :=
  let warnings := validate r
  let X := featureVector r
  match modelPredict m X with
  | .ok predicted_log_hc =>
      { warnings := warnings
        result := some { predicted_log_hc := predicted_log_hc
                         zone := classify predicted_log_hc }
        errorMsg := none }
  | .error _ =>
      { warnings := warnings
        result := none
        errorMsg := some failedPredictionMessage }

/-- A session: a sequence of interactions processed one after the other
(spec §5: single-threaded, one request at a time, model loaded once). -/
def runSession (m : Model) (reqs : List PredictionRequest) : List Output :=
  reqs.map (runInteraction m)

/-- Prediction and classification alone, with no reference to validation:
used to state that the result never depends on the warnings. -/
def predictAndClassify (m : Model) (r : PredictionRequest) : Option PredictionResult :=
  match modelPredict m (featureVector r) with
  | .ok v => some { predicted_log_hc := v, zone := classify v }
  | .error _ => none

/-! Helper lemmas shared by several claims. -/

/-- The classifier with its decimal literals normalized to plain rationals
and the redundant left conjunct of the AMBER guard removed. -/
lemma classify_eq_cases (x : ℚ) :
    classify x =
      if x ≤ -7 then Zone.GREEN
      else if x ≤ -13/2 then Zone.AMBER
      else Zone.RED := by
  unfold classify
  have e : (-7.0 : ℚ) = -7 := by norm_num
  have e2 : (-6.5 : ℚ) = -13/2 := by norm_num
  rw [e, e2]
  rcases le_or_lt x (-7) with h | h
  · rw [if_pos h, if_pos h]
  · rw [if_neg (not_le.mpr h), if_neg (not_le.mpr h)]
    rcases le_or_lt x (-13/2) with h2 | h2
    · rw [if_pos ⟨h, h2⟩, if_pos h2]
    · rw [if_neg, if_neg (not_le.mpr h2)]
      rintro ⟨-, hh⟩
      exact absurd hh (not_le.mpr h2)

/-- The classifier returns GREEN exactly on `x ≤ -7`. -/
lemma classify_green_iff (x : ℚ) : classify x = Zone.GREEN ↔ x ≤ -7 := by
  constructor
  · intro hcl
    by_contra hx
    rw [classify_eq_cases, if_neg hx] at hcl
    split_ifs at hcl
  · intro hx
    rw [classify_eq_cases, if_pos hx]

/-- The classifier returns AMBER exactly on `-7 < x ≤ -6.5`. -/
lemma classify_amber_iff (x : ℚ) :
    classify x = Zone.AMBER ↔ -7 < x ∧ x ≤ -13/2 := by
  constructor
  · intro hcl
    rw [classify_eq_cases] at hcl
    split_ifs at hcl with h1 h2
    exact ⟨lt_of_not_le h1, h2⟩
  · rintro ⟨h1, h2⟩
    rw [classify_eq_cases, if_neg (not_le.mpr h1), if_pos h2]

/-- The classifier returns RED exactly on `-6.5 < x`. -/
lemma classify_red_iff (x : ℚ) : classify x = Zone.RED ↔ -13/2 < x := by
  constructor
  · intro hcl
    rw [classify_eq_cases] at hcl
    split_ifs at hcl with h1 h2
    exact lt_of_not_le h2
  · intro h
    have h1 : ¬ x ≤ -7 := by push_neg; linarith
    rw [classify_eq_cases, if_neg h1, if_neg (not_le.mpr h)]

/-- C1: the classifier is a pure, total function of `predicted_log_hc`
mapping every input to exactly one of GREEN, AMBER, RED, with boundaries
inclusive on the stricter side: `x ≤ -7.0` yields GREEN, `-7.0 < x ≤ -6.5`
yields AMBER, `x > -6.5` yields RED; in particular `classify (-7.0) = GREEN`
and `classify (-6.5) = AMBER`. -/
theorem classify_boundaries (x : ℚ) :
    (classify x = Zone.GREEN ↔ x ≤ -7.0) ∧
    (classify x = Zone.AMBER ↔ -7.0 < x ∧ x ≤ -6.5) ∧
    (classify x = Zone.RED ↔ -6.5 < x) ∧
    classify (-7.0) = Zone.GREEN ∧ classify (-6.5) = Zone.AMBER := by
  have e : (-7.0 : ℚ) = -7 := by norm_num
  have e2 : (-6.5 : ℚ) = -13/2 := by norm_num
  rw [e, e2]
  refine ⟨classify_green_iff x, classify_amber_iff x, classify_red_iff x, ?_, ?_⟩
  · rw [classify_green_iff]
  · rw [classify_amber_iff]
    norm_num

/-- C10: the classification zone is monotone non-decreasing in
`predicted_log_hc` under the ordering GREEN < AMBER < RED: a lower predicted
log-conductivity never receives a worse zone. -/
theorem classify_zone_monotone (x y : ℚ) (hxy : x ≤ y) :
    zoneIdx (classify x) ≤ zoneIdx (classify y) := by
  cases hcy : classify y with
  | GREEN =>
      have hyle : y ≤ -7 := (classify_green_iff y).mp hcy
      have hxg : classify x = Zone.GREEN :=
        (classify_green_iff x).mpr (le_trans hxy hyle)
      simp [hxg, zoneIdx]
  | AMBER =>
      have hy := (classify_amber_iff y).mp hcy
      have hxr : classify x ≠ Zone.RED := by
        rw [Ne, classify_red_iff]; push_neg; linarith [hy.2]
      cases hcx : classify x with
      | GREEN => simp [zoneIdx]
      | AMBER => simp [zoneIdx]
      | RED => exact absurd hcx hxr
  | RED =>
      cases hcx : classify x <;> simp [zoneIdx]

/-- Witness for C10 at a concrete pair of inputs. -/
theorem classify_zone_monotone_witness :
    zoneIdx (classify (-8)) ≤ zoneIdx (classify (-6)) :=
  classify_zone_monotone (-8) (-6) (by norm_num)

/-- The three warning texts are pairwise distinct (composition vs strength). -/
lemma comp_ne_strength : compositionWarning ≠ strengthWarning := by decide

/-- The three warning texts are pairwise distinct (composition vs Atterberg). -/
lemma comp_ne_atterberg : compositionWarning ≠ atterbergWarning := by decide

/-- The three warning texts are pairwise distinct (strength vs Atterberg). -/
lemma strength_ne_atterberg : strengthWarning ≠ atterbergWarning := by decide

/-- Membership of the composition warning in the validation output. -/
lemma mem_validate_comp (r : PredictionRequest) :
    compositionWarning ∈ validate r ↔ |r.FA + r.SCBA + r.EC - 100| > 1 := by
  unfold validate
  by_cases h1 : |r.FA + r.SCBA + r.EC - 100| > 1 <;>
    by_cases h2 : r.UCS < 200 <;>
      by_cases h3 : r.LL < r.PI <;>
        simp [h1, h2, h3, comp_ne_strength, comp_ne_atterberg]

/-- Membership of the strength warning in the validation output. -/
lemma mem_validate_strength (r : PredictionRequest) :
    strengthWarning ∈ validate r ↔ r.UCS < 200 := by
  unfold validate
  by_cases h1 : |r.FA + r.SCBA + r.EC - 100| > 1 <;>
    by_cases h2 : r.UCS < 200 <;>
      by_cases h3 : r.LL < r.PI <;>
        simp [h1, h2, h3, comp_ne_strength.symm, strength_ne_atterberg]

/-- Membership of the Atterberg warning in the validation output. -/
lemma mem_validate_atterberg (r : PredictionRequest) :
    atterbergWarning ∈ validate r ↔ r.LL < r.PI := by
  unfold validate
  by_cases h1 : |r.FA + r.SCBA + r.EC - 100| > 1 <;>
    by_cases h2 : r.UCS < 200 <;>
      by_cases h3 : r.LL < r.PI <;>
        simp [h1, h2, h3, comp_ne_atterberg.symm, strength_ne_atterberg.symm]

/-- C3: the composition warning fires if and only if
`|FA + SCBA + EC - 100| > 1`. -/
theorem composition_warning_iff (r : PredictionRequest) :
    compositionWarning ∈ validate r ↔ |r.FA + r.SCBA + r.EC - 100| > 1 :=
  mem_validate_comp r

/-- C4: the strength warning fires if and only if `UCS < 200`. -/
theorem strength_warning_iff (r : PredictionRequest) :
    strengthWarning ∈ validate r ↔ r.UCS < 200 :=
  mem_validate_strength r

/-- C5: the Atterberg warning fires if and only if `LL < PI`, and the three
validation rules are independent: every combination of the three warnings is
realized by some request. -/
theorem atterberg_warning_iff_and_rules_independent :
    (∀ r : PredictionRequest, atterbergWarning ∈ validate r ↔ r.LL < r.PI) ∧
    (∀ b1 b2 b3 : Bool, ∃ r : PredictionRequest,
      (compositionWarning ∈ validate r ↔ b1 = true) ∧
      (strengthWarning ∈ validate r ↔ b2 = true) ∧
      (atterbergWarning ∈ validate r ↔ b3 = true)) := by
  constructor
  · exact mem_validate_atterberg
  · intro b1 b2 b3
    cases b1 <;> cases b2 <;> cases b3
    · exact ⟨⟨10, 10, 80, 70, 31, 38, 14, 32, 321⟩, by
        simp only [mem_validate_comp, mem_validate_strength, mem_validate_atterberg]
        norm_num⟩
    · exact ⟨⟨10, 10, 80, 20, 31, 38, 14, 32, 321⟩, by
        simp only [mem_validate_comp, mem_validate_strength, mem_validate_atterberg]
        norm_num⟩
    · exact ⟨⟨10, 10, 80, 70, 31, 38, 14, 32, 150⟩, by
        simp only [mem_validate_comp, mem_validate_strength, mem_validate_atterberg]
        norm_num⟩
    · exact ⟨⟨10, 10, 80, 20, 31, 38, 14, 32, 150⟩, by
        simp only [mem_validate_comp, mem_validate_strength, mem_validate_atterberg]
        norm_num⟩
    · exact ⟨⟨0, 0, 0, 70, 31, 38, 14, 32, 321⟩, by
        simp only [mem_validate_comp, mem_validate_strength, mem_validate_atterberg]
        norm_num⟩
    · exact ⟨⟨0, 0, 0, 20, 31, 38, 14, 32, 321⟩, by
        simp only [mem_validate_comp, mem_validate_strength, mem_validate_atterberg]
        norm_num⟩
    · exact ⟨⟨0, 0, 0, 70, 31, 38, 14, 32, 150⟩, by
        simp only [mem_validate_comp, mem_validate_strength, mem_validate_atterberg]
        norm_num⟩
    · exact ⟨⟨0, 0, 0, 20, 31, 38, 14, 32, 150⟩, by
        simp only [mem_validate_comp, mem_validate_strength, mem_validate_atterberg]
        norm_num⟩

/-- C9: the warnings list is always a sublist of the fixed three-element
list [composition, strength, Atterberg]: it has at most 3 entries, each rule
contributes at most one entry, entries appear in the fixed rule order, and
no other text ever appears. -/
theorem validate_sublist_invariant (r : PredictionRequest) :
    (validate r).Sublist [compositionWarning, strengthWarning, atterbergWarning]
    ∧ (validate r).length ≤ 3 := by
  unfold validate
  by_cases h1 : |r.FA + r.SCBA + r.EC - 100| > 1 <;>
    by_cases h2 : r.UCS < 200 <;>
      by_cases h3 : r.LL < r.PI <;>
        simp [h1, h2, h3]

/-- C7: the feature vector handed to the model is a 9-element vector whose
i-th component is the i-th named field of the request, in the fixed order
[FA, SCBA, EC, LL, PI, FSI, MDUW, OMC, UCS]. -/
theorem featureVector_order (r : PredictionRequest) :
    (featureVector r).length = 9 ∧
    (featureVector r)[0]? = some r.FA ∧
    (featureVector r)[1]? = some r.SCBA ∧
    (featureVector r)[2]? = some r.EC ∧
    (featureVector r)[3]? = some r.LL ∧
    (featureVector r)[4]? = some r.PI ∧
    (featureVector r)[5]? = some r.FSI ∧
    (featureVector r)[6]? = some r.MDUW ∧
    (featureVector r)[7]? = some r.OMC ∧
    (featureVector r)[8]? = some r.UCS :=
  ⟨rfl, rfl, rfl, rfl, rfl, rfl, rfl, rfl, rfl, rfl⟩

/-- The adapter succeeds exactly when the vector length matches. -/
lemma modelPredict_eq_ok (m : Model) (X : List ℚ) (h : X.length = m.expectedDim) :
    modelPredict m X = .ok (m.f X) := by
  unfold modelPredict
  rw [if_pos h]

/-- The adapter fails with a shape-mismatch error on a length mismatch. -/
lemma modelPredict_eq_error (m : Model) (X : List ℚ)
    (h : X.length ≠ m.expectedDim) :
    modelPredict m X = .error (.shapeMismatch X.length m.expectedDim) := by
  unfold modelPredict
  rw [if_neg h]

/-- One interaction, written as a case split on the adapter's outcome. -/
lemma runInteraction_eq (m : Model) (r : PredictionRequest) :
    runInteraction m r =
      match modelPredict m (featureVector r) with
      | .ok v => ⟨validate r, some ⟨v, classify v⟩, none⟩
      | .error _ => ⟨validate r, none, some failedPredictionMessage⟩ := rfl

/-- An interaction whose prediction succeeded. -/
lemma runInteraction_ok (m : Model) (r : PredictionRequest) (v : ℚ)
    (hx : modelPredict m (featureVector r) = .ok v) :
    runInteraction m r = ⟨validate r, some ⟨v, classify v⟩, none⟩ := by
  rw [runInteraction_eq, hx]

/-- An interaction whose prediction failed. -/
lemma runInteraction_error (m : Model) (r : PredictionRequest)
    (e : PredictionError)
    (hx : modelPredict m (featureVector r) = .error e) :
    runInteraction m r = ⟨validate r, none, some failedPredictionMessage⟩ := by
  rw [runInteraction_eq, hx]

/-- C2: on a shape mismatch between the feature vector and the model's
expectation, the interaction surfaces the failed-prediction message, yields
no result, still shows the warnings, and the session goes on processing
every subsequent request. -/
theorem predictionError_surfaced (m : Model) (r : PredictionRequest)
    (reqs : List PredictionRequest) (h : m.expectedDim ≠ 9) :
    (runInteraction m r).errorMsg = some failedPredictionMessage ∧
    (runInteraction m r).result = none ∧
    (runInteraction m r).warnings = validate r ∧
    (runSession m (r :: reqs)).length = reqs.length + 1 := by
  have hx := modelPredict_eq_error m (featureVector r)
    (fun hh => h (hh.symm.trans rfl))
  rw [runInteraction_error m r _ hx]
  refine ⟨rfl, rfl, rfl, ?_⟩
  simp [runSession]

/-- Witness for C2: an 8-input model rejects the 9-element vector, the
failure is surfaced, and the session still processes the next request. -/
theorem predictionError_surfaced_witness :
    (runInteraction ⟨8, fun _ => 0⟩ ⟨10, 10, 80, 70, 31, 38, 14, 32, 321⟩).errorMsg
      = some failedPredictionMessage ∧
    (runInteraction ⟨8, fun _ => 0⟩ ⟨10, 10, 80, 70, 31, 38, 14, 32, 321⟩).result
      = none ∧
    (runInteraction ⟨8, fun _ => 0⟩ ⟨10, 10, 80, 70, 31, 38, 14, 32, 321⟩).warnings
      = validate ⟨10, 10, 80, 70, 31, 38, 14, 32, 321⟩ ∧
    (runSession ⟨8, fun _ => 0⟩
      [⟨10, 10, 80, 70, 31, 38, 14, 32, 321⟩,
       ⟨10, 10, 80, 70, 31, 38, 14, 32, 321⟩]).length = 2 :=
  predictionError_surfaced ⟨8, fun _ => 0⟩ ⟨10, 10, 80, 70, 31, 38, 14, 32, 321⟩
    [⟨10, 10, 80, 70, 31, 38, 14, 32, 321⟩] (by decide)

/-- C6: validation warnings never block prediction: the displayed warnings
are exactly the validator's output, the result is computed by a function
that never consults the warnings, and whenever the vector shape matches,
a classified result is produced whatever the warnings are. -/
theorem warnings_never_block (m : Model) (r : PredictionRequest) :
    (runInteraction m r).warnings = validate r ∧
    (runInteraction m r).result = predictAndClassify m r ∧
    (m.expectedDim = 9 →
      (runInteraction m r).result =
        some ⟨m.f (featureVector r), classify (m.f (featureVector r))⟩) := by
  by_cases hdim : m.expectedDim = 9
  · have hx := modelPredict_eq_ok m (featureVector r)
      (show (featureVector r).length = m.expectedDim from hdim.symm)
    rw [runInteraction_ok m r _ hx]
    refine ⟨rfl, ?_, fun _ => rfl⟩
    unfold predictAndClassify
    rw [hx]
  · have hx := modelPredict_eq_error m (featureVector r)
      (fun hh => hdim (hh.symm.trans rfl))
    rw [runInteraction_error m r _ hx]
    refine ⟨rfl, ?_, fun hd => absurd hd hdim⟩
    unfold predictAndClassify
    rw [hx]

/-- Witness for C6: a 9-input model with warnings present (all three fire on
this request) still produces the classified result. -/
theorem warnings_never_block_witness :
    (runInteraction ⟨9, fun _ => -8⟩ ⟨0, 0, 0, 20, 31, 38, 14, 32, 150⟩).warnings
      = validate ⟨0, 0, 0, 20, 31, 38, 14, 32, 150⟩ ∧
    (runInteraction ⟨9, fun _ => -8⟩ ⟨0, 0, 0, 20, 31, 38, 14, 32, 150⟩).result
      = predictAndClassify ⟨9, fun _ => -8⟩ ⟨0, 0, 0, 20, 31, 38, 14, 32, 150⟩ ∧
    (runInteraction ⟨9, fun _ => -8⟩ ⟨0, 0, 0, 20, 31, 38, 14, 32, 150⟩).result
      = some ⟨(⟨9, fun _ => -8⟩ : Model).f
                (featureVector ⟨0, 0, 0, 20, 31, 38, 14, 32, 150⟩),
              classify ((⟨9, fun _ => -8⟩ : Model).f
                (featureVector ⟨0, 0, 0, 20, 31, 38, 14, 32, 150⟩))⟩ :=
  ⟨(warnings_never_block ⟨9, fun _ => -8⟩ ⟨0, 0, 0, 20, 31, 38, 14, 32, 150⟩).1,
   (warnings_never_block ⟨9, fun _ => -8⟩ ⟨0, 0, 0, 20, 31, 38, 14, 32, 150⟩).2.1,
   (warnings_never_block ⟨9, fun _ => -8⟩ ⟨0, 0, 0, 20, 31, 38, 14, 32, 150⟩).2.2 rfl⟩

/-- C8: the derived linear-space conductivity is 10 raised to the predicted
log-conductivity, and taking log base 10 recovers the predicted value
exactly (round-trip between log space and linear space). -/
theorem predicted_hc_roundtrip (x : ℝ) :
    predicted_hc x = (10 : ℝ) ^ x ∧ Real.logb 10 (predicted_hc x) = x := by
  refine ⟨rfl, ?_⟩
  unfold predicted_hc
  exact Real.logb_rpow (by norm_num) (by norm_num)

end HCApp
